import Mathlib

/-!
Verification of `busqueda_comunicaciones.py` (repository `auto-sade`).

The program has two parts:
* `obtener_comunicaciones` — reads a spreadsheet, keeps the rows whose
  `"ORGANISMO"` cell is null, and returns the `"CCOO N°"` column of those rows;
* `buscar_comunicaciones` — drives a browser session (login, then a
  search/open/download/return loop per identifier).

We embed the first as a pure function on an abstract spreadsheet, and the
second as a trace-producing function: every externally visible browser action
becomes an `Event`, the outcome of each download attempt is supplied by an
oracle `dl : Nat → DlResult` (indexed by loop iteration), and the result of a
run is the list of events performed together with an optional fatal error.
-/

namespace AutoSade

/-- A spreadsheet cell: `none` models a null/NaN cell (pandas `isnull`). -/
abbrev Cell := Option String

/-- An in-memory spreadsheet (the first sheet of the chosen file):
a header of column names and rows of cells aligned with the header. -/
structure Sheet where
  header : List String
  rows : List (List Cell)
deriving DecidableEq

/-- Cell of `row` in column position `i` (missing positions read as null). -/
def getCell (row : List Cell) (i : Nat) : Cell :=
  row.getD i none

/-- Embedding of `obtener_comunicaciones` (src/busqueda_comunicaciones.py,
lines 12–18).  `pd.read_excel(..., usecols=columnas)` raises when a requested
column is absent, modelled by the `Except.error` branch; then
`df = df[df["ORGANISMO"].isnull()]` filters the rows and
`df["CCOO N°"].tolist()` projects the identifier column. -/
def obtener_comunicaciones (s : Sheet) : Except String (List Cell) :=
  let columnas : List String := ["CCOO N°", "ORGANISMO"]
  if columnas.all (fun c => s.header.contains c) then
    let iC := s.header.indexOf "CCOO N°"
    let iO := s.header.indexOf "ORGANISMO"
    Except.ok (((s.rows.filter (fun r => (getCell r iO).isNone)).map
      (fun r => getCell r iC)))
  else
    Except.error "Usecols do not match columns"

/-- Modelled from the spec (section 8): "the identifier list returned equals
exactly the identifier-column values of rows whose organism field is empty, in
original row order, with no filtering of duplicates or blanks in the
identifier field itself".  Written independently of the source, to be compared
with `obtener_comunicaciones`. -/
def selectorSpec (s : Sheet) : List Cell :=
  s.rows.filterMap (fun r =>
    if (getCell r (s.header.indexOf "ORGANISMO")).isNone then
      some (getCell r (s.header.indexOf "CCOO N°"))
    else none)

/-- Outcome of one download attempt, supplied by the environment:
either a completed transfer with its suggested filename, or a raised
exception rendered as a message string. -/
inductive DlResult where
  | ok (suggestedFilename : String)
  | fail (excMsg : String)
deriving DecidableEq

/-- Externally visible actions of the browser session, in program order. -/
inductive Event where
  | setDefaultTimeout (ms : Nat)
  | goto (url : String)
  | waitLoadState (state : String)
  | waitFor (selector : String)
  | fill (selector : String) (nth : Nat) (value : String)
  | click (selector : String) (nth : Nat)
  | sleepMs (ms : Nat)
  | awaitDownload (timeoutMs : Nat)
  | saveAs (iter : Nat) (path : String)
  | log (msg : String)
deriving DecidableEq

/-- Result of a run: the events performed, and the fatal error (if any)
that aborted it.  A fatal run still records the events that preceded it. -/
structure RunResult where
  events : List Event
  error : Option String
deriving DecidableEq

/-- `os.path.join(os.path.expanduser("~"), "Downloads", fn)`. -/
def savePath (home fn : String) : String :=
  home ++ "/Downloads/" ++ fn

/-- Events of one loop iteration `i` processing identifier `c`
(src lines 49–74): search fill, search click, open the detail view, then the
guarded download block; on success the file is saved and the session returns
to the list view, on an exception the error is printed and `continue` skips
the return-to-list step. -/
def iterEvents (home : String) (r : DlResult) (i : Nat) (c : String) : List Event :=
  [Event.fill ".z-textbox" 0 c,
   Event.click ".z-button" 2,
   Event.waitLoadState "networkidle",
   Event.sleepMs 1000,
   Event.click ".boton-sin-caja.z-button" 29,
   Event.waitLoadState "networkidle",
   Event.sleepMs 1000] ++
  (match r with
   | DlResult.ok fn =>
      [Event.click ".z-icon-download" 0,
       Event.awaitDownload 30000,
       Event.saveAs i (savePath home fn),
       Event.sleepMs 500,
       Event.click ".btn.z-button" 0,
       Event.sleepMs 1000,
       Event.waitLoadState "networkidle"]
   | DlResult.fail e =>
      [Event.click ".z-icon-download" 0,
       Event.awaitDownload 30000,
       Event.log ("Error descargando archivo de comunicación " ++ e)])

/-- The per-identifier loop (src lines 48–74), iteration counter made
explicit: iteration `i` processes the head of the remaining list. -/
def procesar (home : String) (dl : Nat → DlResult) : Nat → List String → List Event
  | _, [] => []
  | i, c :: rest => iterEvents home (dl i) i c ++ procesar home dl (i + 1) rest

/-- Credentials read from the process environment
(`SADE_USER_CECILIA`, `SADE_PASSWORD_CECILIA`); `none` = variable unset. -/
structure Env where
  user : Option String
  password : Option String
deriving DecidableEq

/-- Events performed before the credential check (src lines 28–35):
default timeout, navigation to the portal, waiting for the page and for the
first credential box. -/
def prologueEvents : List Event :=
  [Event.setDefaultTimeout 30000,
   Event.goto "http://euc.gcba.gob.ar/ccoo-web/",
   Event.waitLoadState "networkidle",
   Event.waitFor ".form-control.z-textbox"]

/-- The login sequence (src lines 42–46). -/
def loginEvents (u pw : String) : List Event :=
  [Event.fill ".form-control.z-textbox" 0 u,
   Event.fill ".form-control.z-textbox" 1 pw,
   Event.click ".btn.btn-default.z-button" 0,
   Event.waitLoadState "networkidle",
   Event.sleepMs 2000]

/-- Embedding of `buscar_comunicaciones` (src lines 21–74).  `home` stands
for `os.path.expanduser("~")`, `env` for the process environment, `dl` for
the outcome of each iteration's download attempt.  The credential check
(src lines 37–40) happens after the portal has been navigated to; when a
credential is missing the `ValueError` aborts the run there. -/
def buscar_comunicaciones (home : String) (env : Env) (dl : Nat → DlResult)
    (comunicaciones : List String) : RunResult :=
  match env.user, env.password with
  | some u, some pw =>
      { events := prologueEvents ++ loginEvents u pw ++ procesar home dl 0 comunicaciones,
        error := none }
  | _, _ =>
      { events := prologueEvents,
        error := some "Environment variables for SADE credentials not found" }

/-- Identifier cells are handed to `buscar_comunicaciones` as strings
(null cells surface as pandas `NaN`, rendered "nan" in string context). -/
def cellToStr : Cell → String
  | some s => s
  | none => "nan"

/-- Embedding of `main` (src lines 77–79): run the selector, then the
downloader; a selector failure aborts before any browser interaction. -/
def main (s : Sheet) (home : String) (env : Env) (dl : Nat → DlResult) : RunResult :=
  match obtener_comunicaciones s with
  | Except.error e => { events := [], error := some e }
  | Except.ok comms => buscar_comunicaciones home env dl (comms.map cellToStr)

/-! ### Trace observables -/

/-- The search-field fills, in order: values filled into `.z-textbox` nth 0
(the login fills use the distinct selector `.form-control.z-textbox`). -/
def searchFills (tr : List Event) : List String :=
  tr.filterMap (fun e => match e with
    | Event.fill ".z-textbox" 0 v => some v
    | _ => none)

/-- Number of detail-view opens (clicks on `.boton-sin-caja.z-button` nth 29). -/
def openClicks (tr : List Event) : Nat :=
  tr.countP (fun e => match e with
    | Event.click ".boton-sin-caja.z-button" 29 => true
    | _ => false)

/-- Number of download attempts (entries of `page.expect_download`). -/
def dlAttempts (tr : List Event) : Nat :=
  tr.countP (fun e => match e with
    | Event.awaitDownload _ => true
    | _ => false)

/-- Number of return-to-list clicks (`.btn.z-button` nth 0, src line 72). -/
def returnClicks (tr : List Event) : Nat :=
  tr.countP (fun e => match e with
    | Event.click ".btn.z-button" 0 => true
    | _ => false)

/-- The completed saves, in order: (iteration, destination path). -/
def savesOf (tr : List Event) : List (Nat × String) :=
  tr.filterMap (fun e => match e with
    | Event.saveAs i p => some (i, p)
    | _ => none)

/-- The messages printed to standard output, in order. -/
def logsOf (tr : List Event) : List String :=
  tr.filterMap (fun e => match e with
    | Event.log m => some m
    | _ => none)

/-- Whether `needle` occurs as a substring of `hay`
(via `String.splitOn`: absent iff the split is a singleton). -/
def containsStr (hay needle : String) : Bool :=
  (hay.splitOn needle).length != 1

/-- Iteration of the last save to path `p`, folding the saves left to right:
a later `save_as` to the same destination replaces the earlier file. -/
def lastWriter (saves : List (Nat × String)) (p : String) : Option Nat :=
  saves.foldl (fun acc x => if x.2 = p then some x.1 else acc) none

/-- Whether a download attempt completed. -/
def DlResult.isOk : DlResult → Bool
  | DlResult.ok _ => true
  | DlResult.fail _ => false

/-- The save produced by iteration `k` (if its download completed). -/
def saveEntry (home : String) (dl : Nat → DlResult) (k : Nat) : Option (Nat × String) :=
  match dl k with
  | DlResult.ok fn => some (k, savePath home fn)
  | DlResult.fail _ => none

/-- The message printed by iteration `k` (if its download raised). -/
def logEntry (dl : Nat → DlResult) (k : Nat) : Option String :=
  match dl k with
  | DlResult.ok _ => none
  | DlResult.fail e => some ("Error descargando archivo de comunicación " ++ e)

/-- Every `expect_download` in the trace uses the fixed 30000 ms timeout. -/
def timeout30 : Event → Bool
  | Event.awaitDownload t => t == 30000
  | _ => true

/-- Every click on the download-icon set hits its first element (nth 0). -/
def dlClickFirst : Event → Bool
  | Event.click ".z-icon-download" n => n == 0
  | _ => true

/-- Whether the list of characters `needle` occurs inside `hay` starting at
its head. -/
def headMatches : List Char → List Char → Bool
  | _, [] => true
  | [], _ :: _ => false
  | a :: hay, b :: needle => a == b && headMatches hay needle

/-- Whether `needle` occurs somewhere inside `hay`. -/
def subOccurs (needle : List Char) : List Char → Bool
  | [] => headMatches [] needle
  | c :: hay => headMatches (c :: hay) needle || subOccurs needle hay

/-- Whether the string `needle` occurs as a substring of `hay`. -/
def mentions (hay needle : String) : Bool :=
  subOccurs needle.toList hay.toList

/-- The spreadsheet of the spec's worked example: columns
`["CCOO N°", "ORGANISMO"]`, rows `[("100", None), ("200", "X"), ("300", None)]`. -/
def exampleSheet : Sheet :=
  { header := ["CCOO N°", "ORGANISMO"],
    rows := [[some "100", none], [some "200", some "X"], [some "300", none]] }

/-! ### Helper lemmas: observables of the building blocks -/

lemma searchFills_append (a b : List Event) :
    searchFills (a ++ b) = searchFills a ++ searchFills b :=
  List.filterMap_append a b _

lemma savesOf_append (a b : List Event) :
    savesOf (a ++ b) = savesOf a ++ savesOf b :=
  List.filterMap_append a b _

lemma logsOf_append (a b : List Event) :
    logsOf (a ++ b) = logsOf a ++ logsOf b :=
  List.filterMap_append a b _

lemma openClicks_append (a b : List Event) :
    openClicks (a ++ b) = openClicks a + openClicks b :=
  List.countP_append _ a b

lemma dlAttempts_append (a b : List Event) :
    dlAttempts (a ++ b) = dlAttempts a + dlAttempts b :=
  List.countP_append _ a b

lemma returnClicks_append (a b : List Event) :
    returnClicks (a ++ b) = returnClicks a + returnClicks b :=
  List.countP_append _ a b

lemma searchFills_iterEvents (home : String) (r : DlResult) (i : Nat) (c : String) :
    searchFills (iterEvents home r i c) = [c] := by
  cases r <;> rfl

lemma openClicks_iterEvents (home : String) (r : DlResult) (i : Nat) (c : String) :
    openClicks (iterEvents home r i c) = 1 := by
  cases r <;> rfl

lemma dlAttempts_iterEvents (home : String) (r : DlResult) (i : Nat) (c : String) :
    dlAttempts (iterEvents home r i c) = 1 := by
  cases r <;> rfl

lemma returnClicks_iterEvents (home : String) (r : DlResult) (i : Nat) (c : String) :
    returnClicks (iterEvents home r i c) = if r.isOk then 1 else 0 := by
  cases r <;> rfl

lemma savesOf_iterEvents (home : String) (dl : Nat → DlResult) (i : Nat) (c : String) :
    savesOf (iterEvents home (dl i) i c) = (saveEntry home dl i).toList := by
  unfold saveEntry
  cases dl i <;> rfl

lemma logsOf_iterEvents (home : String) (dl : Nat → DlResult) (i : Nat) (c : String) :
    logsOf (iterEvents home (dl i) i c) = (logEntry dl i).toList := by
  unfold logEntry
  cases dl i <;> rfl

lemma searchFills_prologue : searchFills prologueEvents = [] := rfl

lemma searchFills_login (u pw : String) : searchFills (loginEvents u pw) = [] := rfl

lemma savesOf_prologue : savesOf prologueEvents = [] := rfl

lemma savesOf_login (u pw : String) : savesOf (loginEvents u pw) = [] := rfl

lemma logsOf_prologue : logsOf prologueEvents = [] := rfl

lemma logsOf_login (u pw : String) : logsOf (loginEvents u pw) = [] := rfl

lemma openClicks_prologue : openClicks prologueEvents = 0 := rfl

lemma openClicks_login (u pw : String) : openClicks (loginEvents u pw) = 0 := rfl

lemma dlAttempts_prologue : dlAttempts prologueEvents = 0 := rfl

lemma dlAttempts_login (u pw : String) : dlAttempts (loginEvents u pw) = 0 := rfl

lemma returnClicks_prologue : returnClicks prologueEvents = 0 := rfl

lemma returnClicks_login (u pw : String) : returnClicks (loginEvents u pw) = 0 := rfl

lemma buscar_eq_of_env (home u pw : String) (env : Env) (dl : Nat → DlResult)
    (comms : List String) (hu : env.user = some u) (hp : env.password = some pw) :
    buscar_comunicaciones home env dl comms =
      { events := prologueEvents ++ loginEvents u pw ++ procesar home dl 0 comms,
        error := none } := by
  obtain ⟨eu, ep⟩ := env
  obtain rfl : eu = some u := hu
  obtain rfl : ep = some pw := hp
  rfl

/-! ### Helper lemmas: observables of the whole loop -/

lemma searchFills_procesar (home : String) (dl : Nat → DlResult) (comms : List String) :
    ∀ i : Nat, searchFills (procesar home dl i comms) = comms := by
  induction comms with
  | nil => intro i; rfl
  | cons c rest ih =>
    intro i
    rw [procesar, searchFills_append, searchFills_iterEvents, ih (i + 1)]
    rfl

lemma openClicks_procesar (home : String) (dl : Nat → DlResult) (comms : List String) :
    ∀ i : Nat, openClicks (procesar home dl i comms) = comms.length := by
  induction comms with
  | nil => intro i; rfl
  | cons c rest ih =>
    intro i
    rw [procesar, openClicks_append, openClicks_iterEvents, ih (i + 1)]
    simp [Nat.add_comm]

lemma dlAttempts_procesar (home : String) (dl : Nat → DlResult) (comms : List String) :
    ∀ i : Nat, dlAttempts (procesar home dl i comms) = comms.length := by
  induction comms with
  | nil => intro i; rfl
  | cons c rest ih =>
    intro i
    rw [procesar, dlAttempts_append, dlAttempts_iterEvents, ih (i + 1)]
    simp [Nat.add_comm]

lemma returnClicks_procesar (home : String) (dl : Nat → DlResult) (comms : List String) :
    ∀ i : Nat, returnClicks (procesar home dl i comms) =
      (List.range' i comms.length).countP (fun k => (dl k).isOk) := by
  induction comms with
  | nil => intro i; rfl
  | cons c rest ih =>
    intro i
    rw [procesar, returnClicks_append, returnClicks_iterEvents, ih (i + 1),
      List.length_cons, List.range'_succ, List.countP_cons]
    cases h : (dl i).isOk <;> simp [h, Nat.add_comm]

lemma savesOf_procesar (home : String) (dl : Nat → DlResult) (comms : List String) :
    ∀ i : Nat, savesOf (procesar home dl i comms) =
      (List.range' i comms.length).filterMap (saveEntry home dl) := by
  induction comms with
  | nil => intro i; rfl
  | cons c rest ih =>
    intro i
    rw [procesar, savesOf_append, savesOf_iterEvents home dl i c, ih (i + 1),
      List.length_cons, List.range'_succ, List.filterMap_cons]
    cases h : saveEntry home dl i <;> simp [h]

lemma logsOf_procesar (home : String) (dl : Nat → DlResult) (comms : List String) :
    ∀ i : Nat, logsOf (procesar home dl i comms) =
      (List.range' i comms.length).filterMap (logEntry dl) := by
  induction comms with
  | nil => intro i; rfl
  | cons c rest ih =>
    intro i
    rw [procesar, logsOf_append, logsOf_iterEvents home dl i c, ih (i + 1),
      List.length_cons, List.range'_succ, List.filterMap_cons]
    cases h : logEntry dl i <;> simp [h]

/-! ### Helper lemmas: last-writer-wins semantics of repeated saves -/

lemma lastWriter_foldl (p : String) (l : List (Nat × String)) :
    ∀ init : Option Nat,
      List.foldl (fun acc x => if x.2 = p then some x.1 else acc) init l =
        match lastWriter l p with
        | some i => some i
        | none => init := by
  induction l with
  | nil => intro init; rfl
  | cons x l ih =>
    intro init
    show List.foldl _ (if x.2 = p then some x.1 else init) l = _
    have hx : lastWriter (x :: l) p =
        List.foldl (fun acc y => if y.2 = p then some y.1 else acc)
          (if x.2 = p then some x.1 else none) l := rfl
    rw [ih, hx, ih]
    by_cases h : x.2 = p
    · rw [if_pos h, if_pos h]
      cases lastWriter l p <;> rfl
    · rw [if_neg h, if_neg h]
      cases lastWriter l p <;> rfl

lemma lastWriter_append (a b : List (Nat × String)) (p : String) :
    lastWriter (a ++ b) p =
      match lastWriter b p with
      | some i => some i
      | none => lastWriter a p := by
  unfold lastWriter
  rw [List.foldl_append]
  exact lastWriter_foldl p b _

lemma lastWriter_of_forall_ne (p : String) (l : List (Nat × String))
    (h : ∀ x ∈ l, x.2 ≠ p) : lastWriter l p = none := by
  induction l with
  | nil => rfl
  | cons x l ih =>
    show List.foldl _ (if x.2 = p then some x.1 else none) l = none
    rw [if_neg (h x (by simp))]
    exact ih (fun y hy => h y (by simp [hy]))

lemma lastWriter_decomp (a b : List (Nat × String)) (i : Nat) (p : String)
    (hb : ∀ x ∈ b, x.2 ≠ p) :
    lastWriter (a ++ (i, p) :: b) p = some i := by
  rw [lastWriter_append]
  have h1 : lastWriter ((i, p) :: b) p = some i := by
    show List.foldl _ (if p = p then some i else none) b = some i
    rw [if_pos rfl, lastWriter_foldl p b (some i), lastWriter_of_forall_ne p b hb]
  rw [h1]

/-! ### Helper lemmas: miscellaneous -/

lemma map_filter_eq_filterMap {α β : Type} (p : α → Bool) (f : α → β) (l : List α) :
    (l.filter p).map f = l.filterMap (fun a => if p a then some (f a) else none) := by
  induction l with
  | nil => rfl
  | cons a l ih =>
    rw [List.filter_cons, List.filterMap_cons]
    cases h : p a <;> simp [h, ih]

lemma mem_savesOf (tr : List Event) (i : Nat) (p : String) :
    (i, p) ∈ savesOf tr ↔ Event.saveAs i p ∈ tr := by
  induction tr with
  | nil => simp [savesOf]
  | cons e tr ih =>
    cases e <;> simp [savesOf, List.filterMap_cons] at ih ⊢ <;> simp [ih]

lemma all_procesar (home : String) (dl : Nat → DlResult) (P : Event → Bool)
    (hIter : ∀ (r : DlResult) (i : Nat) (c : String), (iterEvents home r i c).all P = true)
    (comms : List String) : ∀ i : Nat, (procesar home dl i comms).all P = true := by
  induction comms with
  | nil => intro i; rfl
  | cons c rest ih =>
    intro i
    rw [procesar, List.all_append, hIter, ih]
    rfl

lemma timeout30_iterEvents (home : String) (r : DlResult) (i : Nat) (c : String) :
    (iterEvents home r i c).all timeout30 = true := by
  cases r <;> rfl

lemma dlClickFirst_iterEvents (home : String) (r : DlResult) (i : Nat) (c : String) :
    (iterEvents home r i c).all dlClickFirst = true := by
  cases r <;> rfl

lemma filterMap_eq_filter_of (g : Nat → Option Nat) (p : Nat → Bool) (l : List Nat)
    (h : ∀ a ∈ l, g a = if p a then some a else none) :
    l.filterMap g = l.filter p := by
  induction l with
  | nil => rfl
  | cons a l ih =>
    rw [List.filterMap_cons, List.filter_cons, h a (by simp)]
    have ht := ih (fun b hb => h b (by simp [hb]))
    cases hp : p a <;> simp [hp, ht]

lemma procesar_eq_enumFrom_flatMap (home : String) (dl : Nat → DlResult)
    (comms : List String) :
    ∀ i : Nat, procesar home dl i comms =
      (List.enumFrom i comms).flatMap (fun x => iterEvents home (dl x.1) x.1 x.2) := by
  induction comms with
  | nil => intro i; rfl
  | cons c rest ih =>
    intro i
    rw [procesar, List.enumFrom_cons, List.flatMap_cons, ih (i + 1)]

/-! ### The claims -/

/-- Claim C1: for every spreadsheet whose header has the two required columns,
`obtener_comunicaciones` returns exactly the identifier-column (`"CCOO N°"`)
values of the rows whose `"ORGANISMO"` cell is null, preserving original row
order, with no deduplication and no removal of null identifier cells — that
is, the list described by the spec-side `selectorSpec`. -/
theorem obtener_comunicaciones_eq_selectorSpec (s : Sheet)
    (h : (["CCOO N°", "ORGANISMO"].all (fun c => s.header.contains c)) = true) :
    obtener_comunicaciones s = Except.ok (selectorSpec s) := by
  simp only [obtener_comunicaciones, selectorSpec]
  rw [if_pos h]
  congr 1
  exact map_filter_eq_filterMap _ _ _

/-- Witness for C1 at the spec's worked example: columns
`["CCOO N°", "ORGANISMO"]`, rows `[("100", None), ("200", "X"), ("300", None)]`
yield `["100", "300"]`. -/
theorem obtener_comunicaciones_eq_selectorSpec_witness :
    ((["CCOO N°", "ORGANISMO"].all (fun c => exampleSheet.header.contains c)) = true) ∧
    obtener_comunicaciones exampleSheet = Except.ok [some "100", some "300"] := by
  refine ⟨rfl, ?_⟩
  rw [obtener_comunicaciones_eq_selectorSpec exampleSheet rfl]
  rfl

/-- Claim C2 is false as stated (counterexample): with the username variable
unset, the run does abort with the credential error, but the navigation to the
portal (`page.goto`, src line 30) has already happened when the check at src
lines 37–40 raises — portal interaction precedes the failure. -/
theorem credential_error_preceded_by_goto :
    (buscar_comunicaciones "/home/user" ⟨none, some "pw"⟩
        (fun _ => DlResult.fail "x") ["100"]).error =
      some "Environment variables for SADE credentials not found" ∧
    Event.goto "http://euc.gcba.gob.ar/ccoo-web/" ∈
      (buscar_comunicaciones "/home/user" ⟨none, some "pw"⟩
        (fun _ => DlResult.fail "x") ["100"]).events :=
  ⟨rfl, by decide⟩

/-- Claim C2 (amended): whenever a credential is unset the run aborts fatally
at the credential check — before any credential fill, login submission or
search — but only after navigating to the portal base page and waiting for the
login form: the performed events are exactly the prologue. -/
theorem missing_credentials_abort_after_base_navigation (home : String) (env : Env)
    (dl : Nat → DlResult) (comms : List String)
    (h : env.user = none ∨ env.password = none) :
    buscar_comunicaciones home env dl comms =
      { events := prologueEvents,
        error := some "Environment variables for SADE credentials not found" } := by
  obtain ⟨eu, ep⟩ := env
  rcases h with h | h
  · obtain rfl : eu = none := h
    cases ep <;> rfl
  · obtain rfl : ep = none := h
    cases eu <;> rfl

/-- Witness for the amended C2. -/
theorem missing_credentials_abort_witness :
    ((⟨none, some "pw"⟩ : Env).user = none ∨ (⟨none, some "pw"⟩ : Env).password = none) ∧
    buscar_comunicaciones "/home/user2" ⟨none, some "pw"⟩
        (fun _ => DlResult.ok "f.pdf") ["7"] =
      { events := prologueEvents,
        error := some "Environment variables for SADE credentials not found" } :=
  ⟨Or.inl rfl,
    missing_credentials_abort_after_base_navigation "/home/user2" ⟨none, some "pw"⟩
      (fun _ => DlResult.ok "f.pdf") ["7"] (Or.inl rfl)⟩

/-- Claim C7: if the organism column is absent from the chosen spreadsheet,
`pd.read_excel(..., usecols=columnas)` raises inside the Input Selector, so
`main` aborts fatally with no browser event performed at all. -/
theorem missing_organismo_fatal_before_browser (s : Sheet) (home : String) (env : Env)
    (dl : Nat → DlResult) (h : s.header.contains "ORGANISMO" = false) :
    main s home env dl = { events := [], error := some "Usecols do not match columns" } := by
  have hcond : (["CCOO N°", "ORGANISMO"].all (fun c => s.header.contains c)) = false := by
    simp [List.all_cons]
    intro hx
    simpa using h
  have hobt : obtener_comunicaciones s = Except.error "Usecols do not match columns" := by
    simp only [obtener_comunicaciones]
    rw [hcond]
    rfl
  simp [main, hobt]

/-- Witness for C7: a sheet with only the identifier column. -/
theorem missing_organismo_witness :
    (Sheet.mk ["CCOO N°"] [[some "1"]]).header.contains "ORGANISMO" = false ∧
    main ⟨["CCOO N°"], [[some "1"]]⟩ "/h" ⟨some "u", some "p"⟩ (fun _ => DlResult.ok "f") =
      { events := [], error := some "Usecols do not match columns" } :=
  ⟨by decide,
    missing_organismo_fatal_before_browser ⟨["CCOO N°"], [[some "1"]]⟩ "/h"
      ⟨some "u", some "p"⟩ (fun _ => DlResult.ok "f") (by decide)⟩

/-- Claim C9: with an empty identifier list the run still navigates to the
portal and performs the full authentication sequence, performs zero
search/open/download events, and terminates normally (no error). -/
theorem empty_list_authenticates_and_finishes (home u pw : String) (env : Env)
    (dl : Nat → DlResult) (hu : env.user = some u) (hp : env.password = some pw) :
    buscar_comunicaciones home env dl [] =
      { events := prologueEvents ++ loginEvents u pw, error := none } ∧
    searchFills (buscar_comunicaciones home env dl []).events = [] ∧
    openClicks (buscar_comunicaciones home env dl []).events = 0 ∧
    dlAttempts (buscar_comunicaciones home env dl []).events = 0 := by
  rw [buscar_eq_of_env home u pw env dl [] hu hp]
  exact ⟨rfl, rfl, rfl, rfl⟩

/-- Claim C3: in a run over N identifiers where the download step of exactly
one iteration `k` raises, all N identifiers are still attempted — every
identifier's search is issued, in order — and a file is saved for every
iteration except `k`. -/
theorem single_failure_attempts_all_identifiers (home u pw : String) (env : Env)
    (dl : Nat → DlResult) (comms : List String) (k : Nat)
    (hu : env.user = some u) (hp : env.password = some pw)
    (hk : k < comms.length) (hfail : (dl k).isOk = false)
    (hok : ∀ i, i < comms.length → i ≠ k → (dl i).isOk = true) :
    searchFills (buscar_comunicaciones home env dl comms).events = comms ∧
    (savesOf (buscar_comunicaciones home env dl comms).events).map Prod.fst =
      (List.range comms.length).filter (fun i => i != k) := by
  rw [buscar_eq_of_env home u pw env dl comms hu hp]
  constructor
  · show searchFills (prologueEvents ++ loginEvents u pw ++ procesar home dl 0 comms) = comms
    rw [searchFills_append, searchFills_append, searchFills_prologue, searchFills_login,
      searchFills_procesar]
    rfl
  · show (savesOf (prologueEvents ++ loginEvents u pw ++ procesar home dl 0 comms)).map
      Prod.fst = _
    rw [savesOf_append, savesOf_append, savesOf_prologue, savesOf_login, savesOf_procesar,
      List.nil_append, List.nil_append, List.map_filterMap, ← List.range_eq_range']
    apply filterMap_eq_filter_of
    intro a ha
    rw [List.mem_range] at ha
    by_cases hak : a = k
    · subst hak
      cases hda : dl a with
      | ok fn => rw [hda] at hfail; exact absurd hfail (by simp [DlResult.isOk])
      | fail e => simp [saveEntry, hda]
    · have hisok := hok a ha hak
      cases hda : dl a with
      | ok fn => simp [saveEntry, hda, hak]
      | fail e => rw [hda] at hisok; exact absurd hisok (by simp [DlResult.isOk])

/-- Witness for C3 at the spec's example: identifiers `["A1", "A2", "A3"]`,
forced failure on the second download, files saved for the first and third. -/
theorem single_failure_witness :
    (⟨some "u", some "p"⟩ : Env).user = some "u" ∧
    (⟨some "u", some "p"⟩ : Env).password = some "p" ∧
    (1 < (["A1", "A2", "A3"] : List String).length) ∧
    searchFills (buscar_comunicaciones "/h" ⟨some "u", some "p"⟩
      (fun i => if i = 1 then DlResult.fail "boom" else DlResult.ok "f.pdf")
      ["A1", "A2", "A3"]).events = ["A1", "A2", "A3"] ∧
    (savesOf (buscar_comunicaciones "/h" ⟨some "u", some "p"⟩
      (fun i => if i = 1 then DlResult.fail "boom" else DlResult.ok "f.pdf")
      ["A1", "A2", "A3"]).events).map Prod.fst = [0, 2] := by
  have h := single_failure_attempts_all_identifiers "/h" "u" "p" ⟨some "u", some "p"⟩
    (fun i => if i = 1 then DlResult.fail "boom" else DlResult.ok "f.pdf")
    ["A1", "A2", "A3"] 1 rfl rfl (by decide) (by decide)
    (by
      intro i hi hik
      have hi3 : i < 3 := hi
      interval_cases i
      · rfl
      · exact absurd rfl hik
      · rfl)
  refine ⟨rfl, rfl, by decide, h.1, ?_⟩
  rw [h.2]
  decide

/-- Claim C4 is false as stated (counterexample): in a run over
`["A1", "A2"]` whose two download steps both fail, the second identifier's
search is issued, yet no return-to-list click (`.btn.z-button` nth 0) occurs
anywhere in the trace — on failure the `continue` at src line 70 skips the
return-to-list navigation of src lines 72–74. -/
theorem failed_download_skips_return_to_list :
    searchFills (buscar_comunicaciones "/h" ⟨some "u", some "p"⟩
      (fun _ => DlResult.fail "t") ["A1", "A2"]).events = ["A1", "A2"] ∧
    returnClicks (buscar_comunicaciones "/h" ⟨some "u", some "p"⟩
      (fun _ => DlResult.fail "t") ["A1", "A2"]).events = 0 :=
  ⟨rfl, rfl⟩

/-- Claim C4 (amended): the session navigates back to the list view (and
waits for it to settle) after exactly the identifiers whose download
succeeded; after a failed download the return-to-list step is skipped and the
next identifier's search is issued without it.  Concretely: in a full run the
number of return-to-list clicks equals the number of successful iterations, a
successful iteration's block ends with the return click, a settle sleep and
the networkidle wait, and a failed iteration's block contains no return
click. -/
theorem return_to_list_only_after_success (home u pw : String) (env : Env)
    (dl : Nat → DlResult) (comms : List String)
    (hu : env.user = some u) (hp : env.password = some pw) :
    returnClicks (buscar_comunicaciones home env dl comms).events =
      (List.range comms.length).countP (fun k => (dl k).isOk) ∧
    (∀ (i : Nat) (c fn : String), ∃ pre,
      iterEvents home (DlResult.ok fn) i c =
        pre ++ [Event.click ".btn.z-button" 0, Event.sleepMs 1000,
          Event.waitLoadState "networkidle"]) ∧
    (∀ (i : Nat) (c e : String),
      returnClicks (iterEvents home (DlResult.fail e) i c) = 0) := by
  refine ⟨?_, ?_, ?_⟩
  · rw [buscar_eq_of_env home u pw env dl comms hu hp]
    show returnClicks (prologueEvents ++ loginEvents u pw ++ procesar home dl 0 comms) = _
    rw [returnClicks_append, returnClicks_append, returnClicks_prologue, returnClicks_login,
      returnClicks_procesar, List.range_eq_range']
    omega
  · intro i c fn
    exact ⟨[Event.fill ".z-textbox" 0 c, Event.click ".z-button" 2,
      Event.waitLoadState "networkidle", Event.sleepMs 1000,
      Event.click ".boton-sin-caja.z-button" 29, Event.waitLoadState "networkidle",
      Event.sleepMs 1000, Event.click ".z-icon-download" 0, Event.awaitDownload 30000,
      Event.saveAs i (savePath home fn), Event.sleepMs 500], rfl⟩
  · intro i c e
    rfl

/-- Witness for the amended C4: first download succeeds, second fails —
exactly one return-to-list click. -/
theorem return_to_list_witness :
    (⟨some "u", some "p"⟩ : Env).user = some "u" ∧
    (⟨some "u", some "p"⟩ : Env).password = some "p" ∧
    returnClicks (buscar_comunicaciones "/h" ⟨some "u", some "p"⟩
      (fun i => if i = 0 then DlResult.ok "a.pdf" else DlResult.fail "t")
      ["A1", "A2"]).events = 1 := by
  have h := (return_to_list_only_after_success "/h" "u" "p" ⟨some "u", some "p"⟩
    (fun i => if i = 0 then DlResult.ok "a.pdf" else DlResult.fail "t")
    ["A1", "A2"] rfl rfl).1
  refine ⟨rfl, rfl, ?_⟩
  rw [h]
  decide

/-- Claim C5 is contradicted by the code (code bug): the handler at src line
69 prints the f-string "Error descargando archivo de comunicación " followed
by `e` — the exception, not the identifier being processed.  At the failing
input (identifier "A2", whose download raises "Timeout 30000ms exceeded.")
the single logged line is the template plus the exception text: it mentions
the exception and does not mention "A2". -/
theorem failure_log_omits_identifier :
    logsOf (buscar_comunicaciones "/h" ⟨some "u", some "p"⟩
      (fun _ => DlResult.fail "Timeout 30000ms exceeded.") ["A2"]).events =
      ["Error descargando archivo de comunicación Timeout 30000ms exceeded."] ∧
    mentions "Error descargando archivo de comunicación Timeout 30000ms exceeded."
      "A2" = false ∧
    mentions "Error descargando archivo de comunicación Timeout 30000ms exceeded."
      "Timeout 30000ms exceeded." = true :=
  ⟨rfl, by decide, by decide⟩

/-- Witness for C9. -/
theorem empty_list_witness :
    (⟨some "u", some "p"⟩ : Env).user = some "u" ∧
    (⟨some "u", some "p"⟩ : Env).password = some "p" ∧
    buscar_comunicaciones "/h" ⟨some "u", some "p"⟩ (fun _ => DlResult.ok "f") [] =
      { events := prologueEvents ++ loginEvents "u" "p", error := none } :=
  ⟨rfl, rfl,
    (empty_list_authenticates_and_finishes "/h" "u" "p" ⟨some "u", some "p"⟩
      (fun _ => DlResult.ok "f") rfl rfl).1⟩

/-- Claim C6: in every run, each download attempt clicks the first element
(nth 0) of the download-icon set, every download wait uses the fixed 30000 ms
timeout, and each successful iteration `i` whose transfer suggests filename
`fn` saves the file to `~/Downloads/fn` (`savePath home fn`). -/
theorem download_first_icon_fixed_timeout_downloads_dir (home u pw : String)
    (env : Env) (dl : Nat → DlResult) (comms : List String)
    (hu : env.user = some u) (hp : env.password = some pw) :
    ((buscar_comunicaciones home env dl comms).events.all timeout30 = true) ∧
    ((buscar_comunicaciones home env dl comms).events.all dlClickFirst = true) ∧
    (∀ i fn, i < comms.length → dl i = DlResult.ok fn →
      Event.saveAs i (savePath home fn) ∈
        (buscar_comunicaciones home env dl comms).events) := by
  rw [buscar_eq_of_env home u pw env dl comms hu hp]
  refine ⟨?_, ?_, ?_⟩
  · show (prologueEvents ++ loginEvents u pw ++ procesar home dl 0 comms).all
      timeout30 = true
    rw [List.all_append, List.all_append,
      all_procesar home dl timeout30 (timeout30_iterEvents home) comms 0]
    rfl
  · show (prologueEvents ++ loginEvents u pw ++ procesar home dl 0 comms).all
      dlClickFirst = true
    rw [List.all_append, List.all_append,
      all_procesar home dl dlClickFirst (dlClickFirst_iterEvents home) comms 0]
    rfl
  · intro i fn hi hdl
    show Event.saveAs i (savePath home fn) ∈
      prologueEvents ++ loginEvents u pw ++ procesar home dl 0 comms
    have hmem : (i, savePath home fn) ∈ savesOf (procesar home dl 0 comms) := by
      rw [savesOf_procesar]
      rw [List.mem_filterMap]
      refine ⟨i, ?_, by simp [saveEntry, hdl]⟩
      rw [List.mem_range'_1]
      omega
    exact List.mem_append.mpr (Or.inr ((mem_savesOf _ i (savePath home fn)).1 hmem))

/-- Witness for C6. -/
theorem download_dir_witness :
    (⟨some "u", some "p"⟩ : Env).user = some "u" ∧
    (⟨some "u", some "p"⟩ : Env).password = some "p" ∧
    (0 < (["A1"] : List String).length) ∧
    Event.saveAs 0 (savePath "/home/x" "doc.pdf") ∈
      (buscar_comunicaciones "/home/x" ⟨some "u", some "p"⟩
        (fun _ => DlResult.ok "doc.pdf") ["A1"]).events :=
  ⟨rfl, rfl, by decide,
    (download_first_icon_fixed_timeout_downloads_dir "/home/x" "u" "p"
      ⟨some "u", some "p"⟩ (fun _ => DlResult.ok "doc.pdf") ["A1"] rfl rfl).2.2
      0 "doc.pdf" (by decide) rfl⟩

/-- Claim C8: the downloader consumes the identifier list strictly
sequentially in list order: the trace is the prologue and login followed by
the per-identifier blocks concatenated in list order (one block per
identifier occurrence, no interleaving, no backtracking), and each
identifier's search, open and download are attempted exactly once — the
search fills equal the identifier list itself and there are exactly N
detail-view opens and N download attempts. -/
theorem identifiers_consumed_sequentially_once (home u pw : String) (env : Env)
    (dl : Nat → DlResult) (comms : List String)
    (hu : env.user = some u) (hp : env.password = some pw) :
    (buscar_comunicaciones home env dl comms).events =
      prologueEvents ++ loginEvents u pw ++
        (comms.enum).flatMap (fun x => iterEvents home (dl x.1) x.1 x.2) ∧
    searchFills (buscar_comunicaciones home env dl comms).events = comms ∧
    openClicks (buscar_comunicaciones home env dl comms).events = comms.length ∧
    dlAttempts (buscar_comunicaciones home env dl comms).events = comms.length := by
  rw [buscar_eq_of_env home u pw env dl comms hu hp]
  refine ⟨?_, ?_, ?_, ?_⟩
  · show prologueEvents ++ loginEvents u pw ++ procesar home dl 0 comms = _
    rw [procesar_eq_enumFrom_flatMap home dl comms 0, List.enum_eq_enumFrom]
  · show searchFills (prologueEvents ++ loginEvents u pw ++ procesar home dl 0 comms) = comms
    rw [searchFills_append, searchFills_append, searchFills_prologue, searchFills_login,
      searchFills_procesar]
    rfl
  · show openClicks (prologueEvents ++ loginEvents u pw ++ procesar home dl 0 comms) =
      comms.length
    rw [openClicks_append, openClicks_append, openClicks_prologue, openClicks_login,
      openClicks_procesar]
    omega
  · show dlAttempts (prologueEvents ++ loginEvents u pw ++ procesar home dl 0 comms) =
      comms.length
    rw [dlAttempts_append, dlAttempts_append, dlAttempts_prologue, dlAttempts_login,
      dlAttempts_procesar]
    omega

/-- Witness for C8. -/
theorem sequential_witness :
    (⟨some "u", some "p"⟩ : Env).user = some "u" ∧
    (⟨some "u", some "p"⟩ : Env).password = some "p" ∧
    searchFills (buscar_comunicaciones "/h" ⟨some "u", some "p"⟩
      (fun _ => DlResult.ok "f") ["B1", "B1", "B2"]).events = ["B1", "B1", "B2"] :=
  ⟨rfl, rfl,
    (identifiers_consumed_sequentially_once "/h" "u" "p" ⟨some "u", some "p"⟩
      (fun _ => DlResult.ok "f") ["B1", "B1", "B2"] rfl rfl).2.1⟩

/-- Claim C10: the destination of every save is `savePath home fn`, a
function of the transfer-suggested filename only.  Conjuncts: (1) the saves
of a run are fully determined by the download oracle and the home directory —
the identifier values never enter the path; (2) consequently two runs over
identifier lists of equal length have identical saves; (3) any two saves
whose transfers suggest the same filename target the identical path; (4) for
two saves to the same path (the second at iteration `j`, no later save to
that path), the last-writer-wins fold resolves the path to the later
iteration `j` — the later write replaces the earlier. -/
theorem saved_path_from_filename_only (home u pw : String) (env : Env)
    (dl : Nat → DlResult) (comms : List String)
    (hu : env.user = some u) (hp : env.password = some pw) :
    savesOf (buscar_comunicaciones home env dl comms).events =
      (List.range' 0 comms.length).filterMap (saveEntry home dl) ∧
    (∀ comms2 : List String, comms2.length = comms.length →
      savesOf (buscar_comunicaciones home env dl comms2).events =
        savesOf (buscar_comunicaciones home env dl comms).events) ∧
    (∀ i j p q fni fnj,
      (i, p) ∈ savesOf (buscar_comunicaciones home env dl comms).events →
      (j, q) ∈ savesOf (buscar_comunicaciones home env dl comms).events →
      dl i = DlResult.ok fni → dl j = DlResult.ok fnj → fni = fnj → p = q) ∧
    (∀ i j fn, i < j → j < comms.length →
      dl i = DlResult.ok fn → dl j = DlResult.ok fn →
      (∀ k fnk, j < k → k < comms.length → dl k = DlResult.ok fnk →
        savePath home fnk ≠ savePath home fn) →
      lastWriter (savesOf (buscar_comunicaciones home env dl comms).events)
        (savePath home fn) = some j) := by
  have hchar : ∀ cs : List String,
      savesOf (buscar_comunicaciones home env dl cs).events =
        (List.range' 0 cs.length).filterMap (saveEntry home dl) := by
    intro cs
    rw [buscar_eq_of_env home u pw env dl cs hu hp]
    show savesOf (prologueEvents ++ loginEvents u pw ++ procesar home dl 0 cs) = _
    rw [savesOf_append, savesOf_append, savesOf_prologue, savesOf_login, savesOf_procesar]
    rfl
  refine ⟨hchar comms, ?_, ?_, ?_⟩
  · intro comms2 hlen
    rw [hchar comms2, hchar comms, hlen]
  · intro i j p q fni fnj hip hjq hdi hdj hfn
    rw [hchar comms] at hip hjq
    obtain ⟨a, _, ha⟩ := List.mem_filterMap.1 hip
    obtain ⟨b, _, hb⟩ := List.mem_filterMap.1 hjq
    have hp2 : p = savePath home fni := by
      cases hda : dl a with
      | ok f =>
        simp [saveEntry, hda] at ha
        obtain ⟨rfl, rfl⟩ := ha
        rw [hda] at hdi
        cases hdi
        rfl
      | fail e => simp [saveEntry, hda] at ha
    have hq2 : q = savePath home fnj := by
      cases hdb : dl b with
      | ok f =>
        simp [saveEntry, hdb] at hb
        obtain ⟨rfl, rfl⟩ := hb
        rw [hdb] at hdj
        cases hdj
        rfl
      | fail e => simp [saveEntry, hdb] at hb
    rw [hp2, hq2, hfn]
  · intro i j fn hij hjn hdi hdj hnolater
    rw [hchar comms]
    have hsplit : List.range' 0 comms.length =
        List.range' 0 (j + 1) ++ List.range' (j + 1) (comms.length - (j + 1)) := by
      have h1 := List.range'_append 0 (j + 1) (comms.length - (j + 1)) 1
      simp only [Nat.one_mul, Nat.zero_add] at h1
      rw [h1, Nat.sub_add_cancel (by omega)]
    have hfront : List.range' 0 (j + 1) = List.range' 0 j ++ [j] := by
      have h2 := @List.range'_concat 1 0 j
      simpa using h2
    rw [hsplit, List.filterMap_append, hfront, List.filterMap_append]
    have hjentry : List.filterMap (saveEntry home dl) [j] = [(j, savePath home fn)] := by
      simp [saveEntry, hdj]
    rw [hjentry, List.append_assoc, List.singleton_append]
    apply lastWriter_decomp
    intro x hx
    obtain ⟨k, hkmem, hk⟩ := List.mem_filterMap.1 hx
    rw [List.mem_range'_1] at hkmem
    cases hdk : dl k with
    | ok fnk =>
      simp [saveEntry, hdk] at hk
      obtain ⟨rfl, rfl⟩ := hk
      exact hnolater k fnk (by omega) (by omega) hdk
    | fail e => simp [saveEntry, hdk] at hk

/-- Witness for C10: two iterations suggesting the same filename — the saves
collide on one path and the later save wins. -/
theorem saved_path_witness :
    (⟨some "u", some "p"⟩ : Env).user = some "u" ∧
    (⟨some "u", some "p"⟩ : Env).password = some "p" ∧
    lastWriter (savesOf (buscar_comunicaciones "/home/x" ⟨some "u", some "p"⟩
      (fun _ => DlResult.ok "same.pdf") ["A1", "A2"]).events)
      (savePath "/home/x" "same.pdf") = some 1 :=
  ⟨rfl, rfl,
    (saved_path_from_filename_only "/home/x" "u" "p" ⟨some "u", some "p"⟩
      (fun _ => DlResult.ok "same.pdf") ["A1", "A2"] rfl rfl).2.2.2 0 1 "same.pdf"
      (by decide) (by decide) rfl rfl
      (fun k fnk h1 h2 _ => by
        exfalso
        have h2b : k < 2 := h2
        omega)⟩

end AutoSade
